import Mathlib

/-!
Shallow embedding of the chat front-end `app.py`: the conversation-to-request
adapter (`build_contents`, `build_system_prompt`), the credential resolution
(`get_api_key`), the generation client (`generate_response`, including the
Python exception semantics of its response-extraction block) and the per-turn
submission handler.  JSON values are modelled by an inductive type; Python
runtime exceptions raised by subscripting, iteration, attribute access and
string joining are modelled explicitly, because the source catches only
`KeyError`, `IndexError` and `ValueError`.
-/

namespace ChatApp

/-- A JSON value as decoded by `response.json()`. -/
inductive Json where
  | null : Json
  | bool (b : Bool) : Json
  | num (n : Int) : Json
  | str (s : String) : Json
  | arr (xs : List Json) : Json
  | obj (fields : List (String × Json)) : Json

/-- Python runtime exception kinds that the extraction block can raise. -/
inductive PyError where
  | keyError : PyError
  | indexError : PyError
  | valueError : PyError
  | typeError : PyError
  | attributeError : PyError
deriving DecidableEq, Repr

/-- The exception classes named in `except (KeyError, IndexError, ValueError)`. -/
def PyError.isCaught : PyError → Bool
  | .keyError => true
  | .indexError => true
  | .valueError => true
  | .typeError => false
  | .attributeError => false

/-- Python `str.strip()` with no argument: remove leading and trailing
whitespace characters.  Defined over the character list so that it reduces
inside the kernel. -/
def pyStrip (s : String) : String :=
  String.mk (((s.data.dropWhile Char.isWhitespace).reverse.dropWhile
    Char.isWhitespace).reverse)

/-- One chat turn, a dict `{"role": ..., "content": ...}` in the source. -/
structure Turn where
  role : String
  content : String
deriving DecidableEq, Repr

/-- One entry of the outgoing `contents` list: a dict
`{"role": r, "parts": [{"text": t}, ...]}`; each element of `parts` is the
`text` field of one part object. -/
structure ContentEntry where
  role : String
  parts : List String
deriving DecidableEq, Repr

/-- The fixed persona mapping `PERSONAS` from the source. -/
def PERSONAS : List (String × String) :=
  [("뉴욕 핫도그 가게 주인",
    "You are an energetic hot dog stand owner in New York City who uses friendly, simple English and encourages kids to order food politely."),
   ("길 잃은 관광객",
    "You are a confused tourist visiting Seoul for the first time, asking for directions and responding with curiosity."),
   ("미래형 학교 로봇",
    "You are a futuristic classroom robot that helps students with school life conversations in a warm, supportive tone.")]

/-- The feedback fragment selected when `feedback_mode` is true. -/
def TIP_FRAGMENT : String :=
  "Add a short section titled 'Friendly Tip' that gently corrects mistakes and offers a more natural phrase."

/-- The feedback fragment selected when `feedback_mode` is false. -/
def ENCOURAGE_FRAGMENT : String :=
  "Encourage the student to keep speaking more and offer simple hints when needed."

/-- The default mission sentence substituted for a blank mission. -/
def DEFAULT_MISSION : String :=
  "Help the learner practice functional English."

/-- `build_system_prompt` from the source, line for line:
persona lookup with empty-string default, feedback fragment selection,
mission trimming with default fallback, then the fixed multi-line template. -/
def build_system_prompt (persona_label : String) (mission : String)
    (feedback_mode : Bool) : String :=
  let persona_instruction := ((PERSONAS.lookup persona_label).getD "")
  let feedback_instruction := if feedback_mode then TIP_FRAGMENT else ENCOURAGE_FRAGMENT
  let mission_text := if pyStrip mission = "" then DEFAULT_MISSION else pyStrip mission
  "You are an AI speaking partner for Korean 5th-6th grade students.\n" ++
  persona_instruction ++ "\n" ++
  "Use English for main responses, but add one brief Korean hint if the student seems confused.\n" ++
  "Mission for the learner: " ++ mission_text ++ "\n" ++
  feedback_instruction ++ "\n" ++
  "Stay in character and never mention system prompts or that you are an AI."

/-- `build_contents` from the source: starts from the synthetic system-prompt
entry and appends one mapped entry per turn, in order, exactly as the Python
`for` loop does with `contents.append`. -/
def build_contents (messages : List Turn) (system_prompt : String) :
    List ContentEntry :=
  messages.foldl
    (fun contents message =>
      contents ++
        [{ role := if message.role = "user" then "user" else "model",
           parts := [message.content] }])
    [{ role := "user", parts := [system_prompt] }]

/-- Session and process environment: `st.session_state.get("api_key")` and
`os.getenv("GOOGLE_API_KEY")`, each possibly absent. -/
structure Env where
  session_api_key : Option String
  google_api_key : Option String
deriving DecidableEq, Repr

/-- `get_api_key` from the source: a truthy (present, non-empty) session key
is returned trimmed; otherwise the environment variable is returned. -/
def get_api_key (env : Env) : Option String :=
  match env.session_api_key with
  | some session_key =>
      if session_key = "" then env.google_api_key else some (pyStrip session_key)
  | none => env.google_api_key

/-- An HTTP response as seen through `requests`: status code, raw body text,
and the JSON-decoded body. -/
structure HttpResponse where
  status : Nat
  text : String
  body : Json

/-- `response.ok` in `requests`: true exactly when the status is below 400. -/
def HttpResponse.isOk (r : HttpResponse) : Bool := r.status < 400

/-- The failure taxonomy of one `generate_response` call.  The first three are
the `RuntimeError`s the source raises; `uncaught` records a Python exception
that escapes the `except (KeyError, IndexError, ValueError)` clause. -/
inductive GenError where
  | missingCredential (msg : String) : GenError
  | providerHttpError (status : Nat) (body : String) : GenError
  | malformedResponse (payload : Json) : GenError
  | uncaught (e : PyError) : GenError

/-- The bilingual message of the missing-credential `RuntimeError`. -/
def MISSING_KEY_MSG : String :=
  "API 키가 설정되지 않았습니다. 사이드바에서 입력하거나 .env 파일을 업데이트하세요."

/-- Python subscripting `v[key]` with a string key: dict lookup (`KeyError`
when absent), `TypeError` on every non-dict value. -/
def pySubscriptStr (v : Json) (key : String) : Except PyError Json :=
  match v with
  | .obj fields =>
      match fields.lookup key with
      | some x => .ok x
      | none => .error .keyError
  | _ => .error .typeError

/-- Python subscripting `v[0]`: list indexing (`IndexError` when empty),
string indexing (one-character string, `IndexError` when empty), dict lookup
with the integer key `0` (`KeyError`, since JSON object keys are strings),
`TypeError` otherwise. -/
def pySubscriptZero (v : Json) : Except PyError Json :=
  match v with
  | .arr [] => .error .indexError
  | .arr (x :: _) => .ok x
  | .str s =>
      match s.data with
      | [] => .error .indexError
      | c :: _ => .ok (.str (String.mk [c]))
  | .obj _ => .error .keyError
  | _ => .error .typeError

/-- Python iteration over `parts`: lists yield elements, strings yield
one-character strings, dicts yield their keys, everything else raises
`TypeError`. -/
def pyIter (v : Json) : Except PyError (List Json) :=
  match v with
  | .arr xs => .ok xs
  | .str s => .ok (s.data.map (fun c => .str (String.mk [c])))
  | .obj fields => .ok (fields.map (fun f => .str f.1))
  | _ => .error .typeError

/-- `part.get("text", "")` followed by `str.join`'s element check: a non-dict
part raises `AttributeError` (no `.get`); a present non-string `text` value
raises `TypeError` inside `join`. -/
def partText (part : Json) : Except PyError String :=
  match part with
  | .obj fields =>
      match (fields.lookup "text").getD (.str "") with
      | .str s => .ok s
      | _ => .error .typeError
  | _ => .error .attributeError

/-- The element-by-element consumption of the generator inside
`"\n".join(part.get("text", "") for part in parts)`: the earliest failing
item determines the exception. -/
def mapParts : List Json → Except PyError (List String)
  | [] => .ok []
  | part :: rest =>
      match partText part with
      | .error e => .error e
      | .ok t =>
          match mapParts rest with
          | .error e => .error e
          | .ok ts => .ok (t :: ts)

/-- `if not text: raise ValueError(...)` followed by `return text`. -/
def finalize (text : String) : Except PyError String :=
  if text = "" then .error .valueError else .ok text

/-- The body of the `try` block of `generate_response`:
`data["candidates"]`, `candidates[0]["content"]["parts"]`, the join of all
part texts with newlines, trim, and the `ValueError` on an empty result.
Each failing step propagates its Python exception. -/
def extract_core (data : Json) : Except PyError String :=
  match pySubscriptStr data "candidates" with
  | .error e => .error e
  | .ok candidates =>
      match pySubscriptZero candidates with
      | .error e => .error e
      | .ok first =>
          match pySubscriptStr first "content" with
          | .error e => .error e
          | .ok content =>
              match pySubscriptStr content "parts" with
              | .error e => .error e
              | .ok parts =>
                  match pyIter parts with
                  | .error e => .error e
                  | .ok items =>
                      match mapParts items with
                      | .error e => .error e
                      | .ok strs =>
                          finalize (pyStrip (String.intercalate "\n" strs))

/-- The extraction step of `generate_response` with its `except` clause:
`KeyError`, `IndexError` and `ValueError` become the unified
`RuntimeError("Unexpected Gemini payload: ...")` carrying the raw decoded
payload; any other exception propagates uncaught. -/
def extract (data : Json) : Except GenError String :=
  match extract_core data with
  | .ok text => .ok text
  | .error e =>
      if e.isCaught then .error (.malformedResponse data) else .error (.uncaught e)

/-- `generate_response` from the source.  `post` is the HTTP collaborator
(`requests.post`), applied to the outgoing `contents` and the key; the second
component of the result is the list of HTTP requests actually issued, so that
"no network call" is observable. -/
def generate_response (env : Env) (post : List ContentEntry → String → HttpResponse)
    (messages : List Turn) (system_prompt : String) :
    Except GenError String × List (List ContentEntry × String) :=
  let api_key := get_api_key env
  match api_key with
  | none => (.error (.missingCredential MISSING_KEY_MSG), [])
  | some k =>
      if k = "" then (.error (.missingCredential MISSING_KEY_MSG), [])
      else
        let contents := build_contents messages system_prompt
        let response := post contents k
        if response.isOk then
          (extract response.body, [(contents, k)])
        else
          (.error (.providerHttpError response.status response.text), [(contents, k)])

/-- The per-turn submission handler (`if prompt:` block): append the user
turn, call `generate_response` on the grown store, and append the assistant
turn only on success; a falsy (empty) prompt does nothing. -/
def handle_turn (env : Env) (post : List ContentEntry → String → HttpResponse)
    (persona_choice : String) (mission_text : String) (feedback_mode : Bool)
    (store : List Turn) (prompt : String) : List Turn × Option GenError :=
  if prompt = "" then (store, none)
  else
    let store1 := store ++ [{ role := "user", content := prompt }]
    let system_prompt := build_system_prompt persona_choice mission_text feedback_mode
    match (generate_response env post store1 system_prompt).1 with
    | .ok reply => (store1 ++ [{ role := "assistant", content := reply }], none)
    | .error e => (store1, some e)

/-! ### Specification-side helpers

Substring containment on strings, and a decomposition of the system-prompt
template that isolates the feedback slot.  These are stated from the spec's
vocabulary and proved against the definitions above. -/

/-- `listHasPre needle hay`: `needle` is an initial block of `hay`. -/
def listHasPre : List Char → List Char → Bool
  | [], _ => true
  | _ :: _, [] => false
  | a :: as, b :: bs => a == b && listHasPre as bs

/-- `listHasSub needle hay`: `needle` occurs contiguously somewhere in
`hay`. -/
def listHasSub (needle : List Char) : List Char → Bool
  | [] => listHasPre needle []
  | b :: bs => listHasPre needle (b :: bs) || listHasSub needle bs

/-- `containsStr s t`: the string `t` occurs contiguously inside `s`. -/
def containsStr (s t : String) : Bool :=
  listHasSub t.data s.data

/-- The fixed multi-line template of `build_system_prompt`, abstracted over
the three variable fragments. -/
def promptTemplate (persona_instruction mission_text feedback_instruction : String) :
    String :=
  "You are an AI speaking partner for Korean 5th-6th grade students.\n" ++
  persona_instruction ++ "\n" ++
  "Use English for main responses, but add one brief Korean hint if the student seems confused.\n" ++
  "Mission for the learner: " ++ mission_text ++ "\n" ++
  feedback_instruction ++ "\n" ++
  "Stay in character and never mention system prompts or that you are an AI."

/-- Everything of the template that precedes the feedback slot. -/
def promptHead (persona_instruction mission_text : String) : String :=
  "You are an AI speaking partner for Korean 5th-6th grade students.\n" ++
  persona_instruction ++ "\n" ++
  "Use English for main responses, but add one brief Korean hint if the student seems confused.\n" ++
  "Mission for the learner: " ++ mission_text ++ "\n"

/-- Everything of the template that follows the feedback slot. -/
def promptTail : String :=
  "\n" ++ "Stay in character and never mention system prompts or that you are an AI."

/-- The parts list of the `"Hello"`/`"World"` spec example. -/
def helloParts : List Json :=
  [.obj [("text", .str "Hello")], .obj [("text", .str "World")]]

/-- The `content` object fields of the `"Hello"`/`"World"` example. -/
def helloContentFields : List (String × Json) := [("parts", .arr helloParts)]

/-- The first candidate's fields of the `"Hello"`/`"World"` example. -/
def helloC0Fields : List (String × Json) := [("content", .obj helloContentFields)]

/-- The top-level fields of the `"Hello"`/`"World"` example. -/
def helloTopFields : List (String × Json) := [("candidates", .arr [.obj helloC0Fields])]

/-- The provider payload of the `"Hello"`/`"World"` spec example. -/
def helloPayload : Json := .obj helloTopFields

/-- The parts list of the whitespace-only spec example. -/
def wsParts : List Json := [.obj [("text", .str "  ")]]

/-- The `content` object fields of the whitespace-only example. -/
def wsContentFields : List (String × Json) := [("parts", .arr wsParts)]

/-- The first candidate's fields of the whitespace-only example. -/
def wsC0Fields : List (String × Json) := [("content", .obj wsContentFields)]

/-- The top-level fields of the whitespace-only example. -/
def wsTopFields : List (String × Json) := [("candidates", .arr [.obj wsC0Fields])]

/-- The whitespace-only provider payload of the spec example. -/
def wsPayload : Json := .obj wsTopFields

/-! ### Helper lemmas -/

theorem listHasPre_self_append : ∀ (t r : List Char), listHasPre t (t ++ r) = true
  | [], _ => rfl
  | a :: as, r => by simp [listHasPre, listHasPre_self_append as r]

theorem listHasSub_of_listHasPre {n h : List Char} (hp : listHasPre n h = true) :
    listHasSub n h = true := by
  cases h with
  | nil => simpa [listHasSub] using hp
  | cons b bs => simp [listHasSub, hp]

theorem listHasSub_append_left {n h : List Char} (hs : listHasSub n h = true) :
    ∀ x : List Char, listHasSub n (x ++ h) = true
  | [] => hs
  | c :: cs => by simp [listHasSub, listHasSub_append_left hs cs]

theorem containsStr_of_eq (s a t b : String) (hs : s = a ++ t ++ b) :
    containsStr s t = true := by
  subst hs
  unfold containsStr
  rw [String.data_append, String.data_append, List.append_assoc]
  exact listHasSub_append_left
    (listHasSub_of_listHasPre (listHasPre_self_append t.data b.data)) a.data

theorem foldl_append_eq {α β : Type} (g : α → β) (msgs : List α) (acc : List β) :
    msgs.foldl (fun c m => c ++ [g m]) acc = acc ++ msgs.map g := by
  induction msgs generalizing acc with
  | nil => simp
  | cons m ms ih => simp [ih]

theorem build_contents_eq (messages : List Turn) (system_prompt : String) :
    build_contents messages system_prompt =
      { role := "user", parts := [system_prompt] } ::
        messages.map (fun m =>
          ({ role := if m.role = "user" then "user" else "model",
             parts := [m.content] } : ContentEntry)) := by
  simpa [build_contents] using
    foldl_append_eq
      (fun m : Turn =>
        ({ role := if m.role = "user" then "user" else "model",
           parts := [m.content] } : ContentEntry))
      messages [{ role := "user", parts := [system_prompt] }]

theorem promptTemplate_decomp (per mt fb : String) :
    promptTemplate per mt fb = promptHead per mt ++ fb ++ promptTail := by
  simp [promptTemplate, promptHead, promptTail, String.append_assoc]

theorem build_system_prompt_eq (p m : String) (f : Bool) :
    build_system_prompt p m f =
      promptTemplate ((PERSONAS.lookup p).getD "")
        (if pyStrip m = "" then DEFAULT_MISSION else pyStrip m)
        (if f then TIP_FRAGMENT else ENCOURAGE_FRAGMENT) := rfl

theorem finalize_ok {s t : String} (h : finalize s = .ok t) : s = t ∧ t ≠ "" := by
  unfold finalize at h
  split at h
  · cases h
  · next hne =>
      injection h with h1
      exact ⟨h1, h1 ▸ hne⟩

theorem extract_core_ok_ne_empty {data : Json} {t : String}
    (h : extract_core data = .ok t) : t ≠ "" := by
  unfold extract_core at h
  repeat' split at h
  all_goals try cases h
  all_goals exact (finalize_ok h).2

theorem mapParts_ok_of_forall₂ {parts : List Json} {texts : List String}
    (h : List.Forall₂ (fun part t =>
        ∃ pf, part = Json.obj pf ∧
          ((pf.lookup "text" = none ∧ t = "") ∨ pf.lookup "text" = some (.str t)))
      parts texts) :
    mapParts parts = .ok texts := by
  induction h with
  | nil => rfl
  | cons hrel hrest ih =>
      obtain ⟨pf, hpart, hcase⟩ := hrel
      subst hpart
      rcases hcase with ⟨hnone, htext⟩ | hsome
      · subst htext
        simp [mapParts, partText, hnone, ih]
      · simp [mapParts, partText, hsome, ih]

/-! ### Claim theorems -/

/-- Claim C3: `build_contents` returns the synthetic system-prompt entry with
role `"user"` first, followed by the input turns in order with contents
unchanged and roles mapped by user→"user", non-user→"model"; the output length
is the input length plus one, and every output role is `"user"` or
`"model"`. -/
theorem c3_build_contents_shape (messages : List Turn) (system_prompt : String) :
    (build_contents messages system_prompt).length = messages.length + 1 ∧
    (build_contents messages system_prompt).head? =
      some { role := "user", parts := [system_prompt] } ∧
    (build_contents messages system_prompt).tail =
      messages.map (fun m =>
        ({ role := if m.role = "user" then "user" else "model",
           parts := [m.content] } : ContentEntry)) ∧
    (build_contents messages system_prompt).all
      (fun c => c.role == "user" || c.role == "model") = true := by
  rw [build_contents_eq messages system_prompt]
  constructor
  · simp
  constructor
  · rfl
  constructor
  · rfl
  simp only [List.all_map, List.all_eq_true, Function.comp, Bool.and_eq_true,
    Bool.or_eq_true, beq_iff_eq]
  intro c hc
  rcases List.mem_cons.mp hc with h | h
  · subst h
    exact Or.inl rfl
  · obtain ⟨m, _, rfl⟩ := List.mem_map.mp h
    by_cases hm : m.role = "user" <;> simp [hm]

/-- Claim C5: the resolved API key is the trimmed session key whenever a
non-empty session key is present, and the environment key `GOOGLE_API_KEY`
when the session key is absent or the empty string. -/
theorem c5_api_key_resolution :
    (∀ (k : String) (envKey : Option String), k ≠ "" →
        get_api_key ⟨some k, envKey⟩ = some (pyStrip k)) ∧
    (∀ envKey : Option String,
        get_api_key ⟨none, envKey⟩ = envKey ∧ get_api_key ⟨some "", envKey⟩ = envKey) := by
  constructor
  · intro k envKey hk
    simp [get_api_key, hk]
  · intro envKey
    exact ⟨rfl, by simp [get_api_key]⟩

/-- Witness for C5 at the concrete session key `" secret "`. -/
theorem c5_witness :
    get_api_key ⟨some " secret ", some "ENVKEY"⟩ = some "secret" :=
  (c5_api_key_resolution.1 " secret " (some "ENVKEY") (by decide)).trans (by decide)

/-- Claim C10: a whitespace-only session key resolves to the trimmed empty
key without consulting the environment fallback, so `generate_response`
fails with the missing-credential error even when `GOOGLE_API_KEY` holds a
valid key, and no HTTP request is issued. -/
theorem c10_whitespace_session_key (s : String) (envKey : Option String)
    (hne : s ≠ "") (htrim : pyStrip s = "") :
    get_api_key ⟨some s, envKey⟩ = some "" ∧
    ∀ (post : List ContentEntry → String → HttpResponse) (messages : List Turn)
        (system_prompt : String),
      generate_response ⟨some s, envKey⟩ post messages system_prompt =
        (.error (.missingCredential MISSING_KEY_MSG), []) := by
  have hkey : get_api_key ⟨some s, envKey⟩ = some "" := by
    simp [get_api_key, hne, htrim]
  refine ⟨hkey, ?_⟩
  intro post messages system_prompt
  simp [generate_response, hkey]

/-- Witness for C10 at the session key `"   "` with a valid environment
key. -/
theorem c10_witness :
    generate_response ⟨some "   ", some "VALIDKEY"⟩
        (fun _ _ => ⟨200, "", .null⟩) [] "sys" =
      (.error (.missingCredential MISSING_KEY_MSG), []) :=
  (c10_whitespace_session_key "   " (some "VALIDKEY") (by decide) (by decide)).2 _ [] "sys"

/-- Claim C4: with no session key (absent or empty) and no environment key,
`generate_response` fails with the missing-credential error carrying the
bilingual message, and the request log stays empty: no HTTP request is
issued, for every possible HTTP collaborator. -/
theorem c4_missing_credential_no_network (env : Env)
    (hsession : env.session_api_key = none ∨ env.session_api_key = some "")
    (henv : env.google_api_key = none) :
    ∀ (post : List ContentEntry → String → HttpResponse) (messages : List Turn)
        (system_prompt : String),
      generate_response env post messages system_prompt =
        (.error (.missingCredential MISSING_KEY_MSG), []) := by
  have hkey : get_api_key env = none := by
    rcases hsession with h | h <;> simp [get_api_key, h, henv]
  intro post messages system_prompt
  simp [generate_response, hkey]

/-- Witness for C4 at the wholly empty environment. -/
theorem c4_witness :
    generate_response ⟨none, none⟩ (fun _ _ => ⟨200, "ok", .null⟩) [] "sys" =
      (.error (.missingCredential MISSING_KEY_MSG), []) :=
  c4_missing_credential_no_network ⟨none, none⟩ (Or.inl rfl) rfl _ [] "sys"

/-- Claim C8: when the HTTP response has a non-success status (`response.ok`
false, i.e. status at least 400), `generate_response` fails with
`ProviderHttpError` carrying that status code and the raw response body. -/
theorem c8_provider_http_error (env : Env) (k : String)
    (post : List ContentEntry → String → HttpResponse)
    (messages : List Turn) (system_prompt : String)
    (hkey : get_api_key env = some k) (hk : k ≠ "")
    (hstatus : (post (build_contents messages system_prompt) k).isOk = false) :
    generate_response env post messages system_prompt =
      (.error (.providerHttpError
          (post (build_contents messages system_prompt) k).status
          (post (build_contents messages system_prompt) k).text),
        [(build_contents messages system_prompt, k)]) := by
  simp [generate_response, hkey, hk, hstatus]

/-- Witness for C8: a simulated HTTP 500 with body `"server error"` yields
`ProviderHttpError 500 "server error"`. -/
theorem c8_witness :
    generate_response ⟨some "KEY", none⟩ (fun _ _ => ⟨500, "server error", .null⟩) [] "sys" =
      (.error (.providerHttpError 500 "server error"),
        [([{ role := "user", parts := ["sys"] }], "KEY")]) :=
  c8_provider_http_error ⟨some "KEY", none⟩ "KEY"
    (fun _ _ => ⟨500, "server error", .null⟩) [] "sys" (by decide) (by decide) (by decide)

/-- Claim C9: on a non-empty submission the handler appends the user turn and
calls the generation client on the grown store; on success exactly one
assistant turn carrying the extracted text is appended, on failure the store
keeps the user turn and gains nothing else; in all cases the store is only
appended to. -/
theorem c9_turn_handler (env : Env) (post : List ContentEntry → String → HttpResponse)
    (persona mission : String) (feedback : Bool) (store : List Turn) (prompt : String)
    (hprompt : prompt ≠ "") :
    (∀ t, (generate_response env post (store ++ [{ role := "user", content := prompt }])
          (build_system_prompt persona mission feedback)).1 = .ok t →
        handle_turn env post persona mission feedback store prompt =
          (store ++ [{ role := "user", content := prompt },
                     { role := "assistant", content := t }], none)) ∧
    (∀ e, (generate_response env post (store ++ [{ role := "user", content := prompt }])
          (build_system_prompt persona mission feedback)).1 = .error e →
        handle_turn env post persona mission feedback store prompt =
          (store ++ [{ role := "user", content := prompt }], some e)) ∧
    (∃ suffix, (handle_turn env post persona mission feedback store prompt).1 =
        store ++ suffix) := by
  refine ⟨?_, ?_, ?_⟩
  · intro t ht
    simp [handle_turn, hprompt, ht]
  · intro e he
    simp [handle_turn, hprompt, he]
  · simp only [handle_turn, if_neg hprompt]
    cases hgen : (generate_response env post
        (store ++ [{ role := "user", content := prompt }])
        (build_system_prompt persona mission feedback)).1 with
    | ok t =>
        exact ⟨[{ role := "user", content := prompt },
                { role := "assistant", content := t }], by simp [hgen]⟩
    | error e =>
        exact ⟨[{ role := "user", content := prompt }], by simp [hgen]⟩

/-- Witness for C9: a failing turn (missing credential) keeps the appended
user turn and appends no assistant turn. -/
theorem c9_witness :
    handle_turn ⟨none, none⟩ (fun _ _ => ⟨200, "", .null⟩) "p" "m" true [] "Hi" =
      ([{ role := "user", content := "Hi" }], some (.missingCredential MISSING_KEY_MSG)) :=
  (c9_turn_handler ⟨none, none⟩ (fun _ _ => ⟨200, "", .null⟩) "p" "m" true [] "Hi"
    (by decide)).2.1 (.missingCredential MISSING_KEY_MSG) rfl

/-- Claim C1 (amended): extraction errors raised as missing-key,
index-out-of-range or empty-text errors are unified into the single
`MalformedResponse` error carrying the raw decoded payload, and every
extraction outcome is a non-empty text, that unified error, or an uncaught
`TypeError`/`AttributeError` escaping the `except` clause on wrong-shaped
fields; in particular `{"candidates": []}` fails with `MalformedResponse`. -/
theorem c1_extraction_unified_error (data : Json) :
    (∀ e, extract_core data = .error e → e.isCaught = true →
        extract data = .error (.malformedResponse data)) ∧
    (∀ e, extract_core data = .error e → e.isCaught = false →
        extract data = .error (.uncaught e)) ∧
    ((∃ t, extract data = .ok t ∧ t ≠ "") ∨
      extract data = .error (.malformedResponse data) ∨
      extract data = .error (.uncaught .typeError) ∨
      extract data = .error (.uncaught .attributeError)) ∧
    extract (.obj [("candidates", .arr [])]) =
      .error (.malformedResponse (.obj [("candidates", .arr [])])) := by
  have h1 : ∀ e, extract_core data = .error e → e.isCaught = true →
      extract data = .error (.malformedResponse data) := by
    intro e he hc
    simp [extract, he, hc]
  have h2 : ∀ e, extract_core data = .error e → e.isCaught = false →
      extract data = .error (.uncaught e) := by
    intro e he hc
    simp [extract, he, hc]
  have h3 : (∃ t, extract data = .ok t ∧ t ≠ "") ∨
      extract data = .error (.malformedResponse data) ∨
      extract data = .error (.uncaught .typeError) ∨
      extract data = .error (.uncaught .attributeError) := by
    cases hco : extract_core data with
    | ok t =>
        exact Or.inl ⟨t, by simp [extract, hco], extract_core_ok_ne_empty hco⟩
    | error e =>
        cases e with
        | keyError => exact Or.inr (Or.inl (h1 _ hco rfl))
        | indexError => exact Or.inr (Or.inl (h1 _ hco rfl))
        | valueError => exact Or.inr (Or.inl (h1 _ hco rfl))
        | typeError => exact Or.inr (Or.inr (Or.inl (h2 _ hco rfl)))
        | attributeError => exact Or.inr (Or.inr (Or.inr (h2 _ hco rfl)))
  exact ⟨h1, ⟨h2, ⟨h3, rfl⟩⟩⟩

/-- Witness for C1 at `{"candidates": []}`: the `IndexError` of
`candidates[0]` is unified into `MalformedResponse`. -/
theorem c1_witness :
    extract (.obj [("candidates", .arr [])]) =
      .error (.malformedResponse (.obj [("candidates", .arr [])])) :=
  (c1_extraction_unified_error (.obj [("candidates", .arr [])])).1 .indexError rfl rfl

/-- Counterexample to C1 as stated: the wrong-shaped payload
`{"candidates": 5}` crashes the extraction step with an uncaught Python
`TypeError` instead of failing with the unified `MalformedResponse`. -/
theorem c1_counterexample :
    extract (.obj [("candidates", .num 5)]) = .error (.uncaught .typeError) ∧
    extract (.obj [("candidates", .num 5)]) ≠
      .error (.malformedResponse (.obj [("candidates", .num 5)])) := by
  refine ⟨rfl, ?_⟩
  intro h
  rw [show extract (.obj [("candidates", .num 5)]) = .error (.uncaught .typeError)
    from rfl] at h
  injection h with h1
  cases h1

/-- Claim C2: for a well-shaped payload (non-empty candidates,
`candidates[0].content.parts` a sequence of objects whose `text` fields are
strings when present, absent treated as empty), extraction returns all part
texts joined with newlines and stripped, or fails with `MalformedResponse`
when the stripped join is empty. -/
theorem c2_extract_wellshaped (fieldsTop c0fields contentFields : List (String × Json))
    (rest parts : List Json) (texts : List String)
    (hcand : fieldsTop.lookup "candidates" = some (.arr (.obj c0fields :: rest)))
    (hcontent : c0fields.lookup "content" = some (.obj contentFields))
    (hparts : contentFields.lookup "parts" = some (.arr parts))
    (htexts : List.Forall₂ (fun part t =>
        ∃ pf, part = Json.obj pf ∧
          ((pf.lookup "text" = none ∧ t = "") ∨ pf.lookup "text" = some (.str t)))
      parts texts) :
    (pyStrip (String.intercalate "\n" texts) ≠ "" →
      extract (.obj fieldsTop) = .ok (pyStrip (String.intercalate "\n" texts))) ∧
    (pyStrip (String.intercalate "\n" texts) = "" →
      extract (.obj fieldsTop) = .error (.malformedResponse (.obj fieldsTop))) := by
  have hcore : extract_core (.obj fieldsTop) =
      finalize (pyStrip (String.intercalate "\n" texts)) := by
    simp [extract_core, pySubscriptStr, hcand, pySubscriptZero, hcontent, hparts,
      pyIter, mapParts_ok_of_forall₂ htexts]
  constructor
  · intro hne
    simp [extract, hcore, finalize, hne]
  · intro heq
    simp [extract, hcore, finalize, heq, PyError.isCaught]

/-- Witness for C2 at the spec's two concrete payloads: the
`"Hello"`/`"World"` payload yields `"Hello\nWorld"` and the whitespace-only
payload fails with `MalformedResponse`. -/
theorem c2_witness :
    extract helloPayload = .ok "Hello\nWorld" ∧
    extract wsPayload = .error (.malformedResponse wsPayload) := by
  constructor
  · exact (c2_extract_wellshaped helloTopFields helloC0Fields helloContentFields
      [] helloParts ["Hello", "World"] rfl rfl rfl
      (.cons ⟨[("text", .str "Hello")], rfl, Or.inr rfl⟩
        (.cons ⟨[("text", .str "World")], rfl, Or.inr rfl⟩ .nil))).1 (by decide)
  · exact (c2_extract_wellshaped wsTopFields wsC0Fields wsContentFields
      [] wsParts ["  "] rfl rfl rfl
      (.cons ⟨[("text", .str "  ")], rfl, Or.inr rfl⟩ .nil)).2 (by decide)

/-- Claim C6 (amended): the template splices exactly one feedback fragment
into its feedback slot — the Friendly-Tip directive when the flag is true,
the encouragement directive when it is false; the two fragments are distinct
and the selected one always occurs in the output.  Only the slot inserts a
fragment; the other fragment can occur only when the mission or persona text
itself contains it verbatim. -/
theorem c6_feedback_slot (p m : String) (f : Bool) :
    build_system_prompt p m f =
      promptHead ((PERSONAS.lookup p).getD "")
          (if pyStrip m = "" then DEFAULT_MISSION else pyStrip m) ++
        (if f then TIP_FRAGMENT else ENCOURAGE_FRAGMENT) ++ promptTail ∧
    TIP_FRAGMENT ≠ ENCOURAGE_FRAGMENT ∧
    containsStr (build_system_prompt p m f)
      (if f then TIP_FRAGMENT else ENCOURAGE_FRAGMENT) = true := by
  have hdec : build_system_prompt p m f =
      promptHead ((PERSONAS.lookup p).getD "")
          (if pyStrip m = "" then DEFAULT_MISSION else pyStrip m) ++
        (if f then TIP_FRAGMENT else ENCOURAGE_FRAGMENT) ++ promptTail :=
    (build_system_prompt_eq p m f).trans (promptTemplate_decomp _ _ _)
  exact ⟨hdec, ⟨by decide, containsStr_of_eq _ _ _ _ hdec⟩⟩

set_option maxRecDepth 8000 in
/-- Counterexample to C6 as stated: with the mission text set verbatim to the
encouragement fragment and feedback enabled, the output contains both fixed
feedback fragments at once. -/
theorem c6_counterexample :
    containsStr (build_system_prompt "x" ENCOURAGE_FRAGMENT true) TIP_FRAGMENT = true ∧
    containsStr (build_system_prompt "x" ENCOURAGE_FRAGMENT true) ENCOURAGE_FRAGMENT
      = true := by
  constructor
  · decide
  · decide

/-- Claim C7: a mission blank after stripping is replaced by the fixed
default mission sentence, so `build_system_prompt "" "   " false` contains
the default mission text; a persona label absent from the fixed mapping
yields the empty instruction fragment, not an error. -/
theorem c7_mission_default_unknown_persona :
    (∀ (p m : String) (f : Bool), pyStrip m = "" →
        build_system_prompt p m f =
          promptTemplate ((PERSONAS.lookup p).getD "") DEFAULT_MISSION
            (if f then TIP_FRAGMENT else ENCOURAGE_FRAGMENT)) ∧
    (∀ (p m : String) (f : Bool), PERSONAS.lookup p = none →
        build_system_prompt p m f =
          promptTemplate "" (if pyStrip m = "" then DEFAULT_MISSION else pyStrip m)
            (if f then TIP_FRAGMENT else ENCOURAGE_FRAGMENT)) ∧
    containsStr (build_system_prompt "" "   " false) DEFAULT_MISSION = true := by
  refine ⟨?_, ?_⟩
  · intro p m f hm
    rw [build_system_prompt_eq p m f]
    simp [hm]
  refine ⟨?_, ?_⟩
  · intro p m f hp
    rw [build_system_prompt_eq p m f, hp]
    rfl
  · decide

set_option maxRecDepth 8000 in
/-- Witness for C7 at the unknown persona label and whitespace-only
mission. -/
theorem c7_witness :
    build_system_prompt "낯선 역할" "   " false =
      promptTemplate "" DEFAULT_MISSION ENCOURAGE_FRAGMENT :=
  (c7_mission_default_unknown_persona.2.1 "낯선 역할" "   " false rfl).trans (by decide)

end ChatApp
